import Mathlib

/-!
Shallow embedding of the WeatherStation live-telemetry core (src/main.py).

Numeric sensor values are modelled as rationals (`ℚ`); Python's
`round(x, 1)` is modelled as exact round-half-to-even on rationals,
scaled by 10.  The nondeterministic draw `random.uniform(a, b)` is
modelled by passing the drawn value `u` (with `a ≤ u ≤ b`) as an
explicit argument to the generation cycle.  Wall-clock timestamps are
passed in as opaque strings.  Effects (CSV append, websocket sends) are
reflected as explicit return values.
-/

/-- Round-half-to-even of a rational to an integer, the exact semantics
of Python's `round` builtin on a tie-free-or-tied rational value. -/
def rhe (q : ℚ) : ℤ :=
  if Int.fract q = 1/2 then (if ⌊q⌋ % 2 = 0 then ⌊q⌋ else ⌊q⌋ + 1)
  else round q

/-- Python `round(x, 1)`: round to one decimal place. -/
def round1 (x : ℚ) : ℚ := (rhe (10 * x) : ℚ) / 10

/-- Decimal rendering of a one-decimal rational, matching Python's
str/f-string output on such values (e.g. `32.4`, `-5.2`, `10.0`).
Display helper for log-message strings only. -/
def fmt1 (q : ℚ) : String :=
  let n : ℤ := ⌊10 * q⌋
  let s := fun (m : ℕ) => toString (m / 10) ++ "." ++ toString (m % 10)
  if n < 0 then "-" ++ s (-n).toNat else s n.toNat

/-- A wire event pushed to observers: either a log line or a data point.
Mirrors the two dict shapes built at src/main.py:69 and src/main.py:99-106. -/
inductive Packet where
  | log (time level message : String)
  | data (sensor_id name : String) (value : ℚ) (unit : String) (timestamp : String)
deriving DecidableEq

/-- The key/rendered-value pairs of the JSON object a packet serializes to,
in the insertion order of the Python dict literals. -/
def Packet.fields : Packet → List (String × String)
  | .log t lvl msg =>
      [("type", "\"log\""), ("time", "\"" ++ t ++ "\""), ("level", "\"" ++ lvl ++ "\""),
       ("message", "\"" ++ msg ++ "\"")]
  | .data sid n v u ts =>
      [("type", "\"data\""), ("sensor_id", "\"" ++ sid ++ "\""), ("name", "\"" ++ n ++ "\""),
       ("value", fmt1 v), ("unit", "\"" ++ u ++ "\""), ("timestamp", "\"" ++ ts ++ "\"")]

/-- `json.dumps` of a packet (default separators). -/
def Packet.serialize (p : Packet) : String :=
  "\x7b" ++ String.intercalate ", " (p.fields.map (fun kv => kv.1 ++ ": " ++ kv.2)) ++ "\x7d"

/-- One THRESHOLDS entry: optional max / min alert bounds (src/main.py:28-33). -/
structure Entry where
  maxLim : Option ℚ
  minLim : Option ℚ
deriving DecidableEq

/-- The THRESHOLDS table of src/main.py:28-33, as an assoc list in dict order. -/
def THRESHOLDS : List (String × Entry) :=
  [("temp", ⟨some 30, some (-5)⟩),
   ("wind", ⟨some 15, none⟩),
   ("uv",   ⟨some 8, none⟩),
   ("air",  ⟨some 100, none⟩)]

/-- Alert classification of the threshold evaluator. -/
inductive Classification where
  | ABOVE_MAX
  | BELOW_MIN
  | NONE
deriving DecidableEq

/-- Threshold evaluation, the conditional chain of src/main.py:92-97:
look up the sensor's entry; if the value exceeds `max` (default 999)
classify ABOVE_MAX, else if below `min` (default -999) classify
BELOW_MIN, else NONE.  Unmatched sensors classify NONE. -/
def classify (table : List (String × Entry)) (sensor_id : String) (v : ℚ) : Classification :=
  match table.lookup sensor_id with
  | none => .NONE
  | some limits =>
      if v > limits.maxLim.getD 999 then .ABOVE_MAX
      else if v < limits.minLim.getD (-999) then .BELOW_MIN
      else .NONE

/-- SensorWorker state (src/main.py:74-82). -/
structure SensorWorker where
  id : String
  name : String
  unit : String
  min_val : ℚ
  max_val : ℚ
  is_running : Bool
  current_value : ℚ
deriving DecidableEq

/-- `SensorWorker.__init__` (src/main.py:75-82): running, current value 0. -/
def SensorWorker.init (sensor_id name unit : String) (min_val max_val : ℚ) : SensorWorker :=
  ⟨sensor_id, name, unit, min_val, max_val, true, 0⟩

/-- The WARNING log packets the body of `SensorWorker.run` emits for a
fresh value `v` (src/main.py:92-97). -/
def limitWarnings (w : SensorWorker) (v : ℚ) (now : String) : List Packet :=
  match THRESHOLDS.lookup w.id with
  | none => []
  | some limits =>
      if v > limits.maxLim.getD 999 then
        [.log now "WARNING" ("HIGH LIMIT: " ++ w.name ++ " " ++ fmt1 v)]
      else if v < limits.minLim.getD (-999) then
        [.log now "WARNING" ("LOW LIMIT: " ++ w.name ++ " " ++ fmt1 v)]
      else []

/-- One iteration of the `while True` body of `SensorWorker.run`
(src/main.py:86-110), with the uniform draw `u` and the clock reading
`now` passed in.  Returns the new worker state and the packets broadcast
this cycle (threshold warnings, then the data event); a paused worker
broadcasts nothing and is unchanged. -/
def SensorWorker.cycle (w : SensorWorker) (u : ℚ) (now : String) : SensorWorker × List Packet :=
  if w.is_running then
    let v := round1 u
    let w' := { w with current_value := v }
    (w', limitWarnings w v now ++ [.data w.id w.name v w.unit now])
  else (w, [])

/-- `SensorWorker.start` (src/main.py:112-115): set running and log only
on a true PAUSED→RUNNING transition. -/
def SensorWorker.start (w : SensorWorker) (now : String) : SensorWorker × List Packet :=
  if !w.is_running then
    ({ w with is_running := true },
     [.log now "INFO" ("Сенсор '" ++ w.name ++ "' стартував.")])
  else (w, [])

/-- `SensorWorker.stop` (src/main.py:117-120): clear running and log only
on a true RUNNING→PAUSED transition. -/
def SensorWorker.stop (w : SensorWorker) (now : String) : SensorWorker × List Packet :=
  if w.is_running then
    ({ w with is_running := false },
     [.log now "INFO" ("Сенсор '" ++ w.name ++ "' зупинено.")])
  else (w, [])

/-- `sensors_list` (src/main.py:122-130). -/
def sensorsList : List SensorWorker :=
  [SensorWorker.init "temp" "Температура" "°C" (-10) 35,
   SensorWorker.init "humid" "Вологість" "%" 20 90,
   SensorWorker.init "wind" "Швидкість вітру" "м/с" 0 25,
   SensorWorker.init "press" "Тиск" "hPa" 980 1050,
   SensorWorker.init "uv" "УФ-індекс" "idx" 0 11,
   SensorWorker.init "rain" "Рівень опадів" "мм" 0 50,
   SensorWorker.init "air" "Якість повітря" "AQI" 0 150]

/-- `sensors_map` (src/main.py:131), as an assoc list keyed by sensor id. -/
def sensorsMap : List (String × SensorWorker) := sensorsList.map (fun s => (s.id, s))

/-- The `/start-sensor/{sensor_id}` handler (src/main.py:184-186) acting on
an assoc-list sensor state: unknown ids are silently ignored. -/
def startSensorCmd (st : List (String × SensorWorker)) (sensor_id now : String) :
    List (String × SensorWorker) × List Packet :=
  match st.lookup sensor_id with
  | none => (st, [])
  | some w =>
      let r := w.start now
      (st.map (fun kv => if kv.1 = sensor_id then (kv.1, r.1) else kv), r.2)

/-- The `/stop-sensor/{sensor_id}` handler (src/main.py:188-190) acting on
an assoc-list sensor state: unknown ids are silently ignored. -/
def stopSensorCmd (st : List (String × SensorWorker)) (sensor_id now : String) :
    List (String × SensorWorker) × List Packet :=
  match st.lookup sensor_id with
  | none => (st, [])
  | some w =>
      let r := w.stop now
      (st.map (fun kv => if kv.1 = sensor_id then (kv.1, r.1) else kv), r.2)

/-- The `/set-interval` handler `set_interval` (src/main.py:177-182):
clamp the requested interval into [0.5, 10.0], store it, broadcast a
SYSTEM log, and answer `status: updated` with the clamped value.
Returns (new stored interval, log packet, (status, returned interval)). -/
def set_interval (requested : ℚ) (now : String) : ℚ × Packet × (String × ℚ) :=
  let new_interval := max (1/2 : ℚ) (min 10 requested)
  (new_interval,
   .log now "SYSTEM" ("Швидкість оновлення змінено на " ++ fmt1 new_interval ++ " сек"),
   ("updated", new_interval))

/-- Python `list.remove(x)`: drop the first occurrence of `x`, or raise
`ValueError` when `x` is absent. -/
def pyRemove {α : Type} [DecidableEq α] : List α → α → Except String (List α)
  | [], _ => .error "ValueError"
  | a :: t, x => if a = x then .ok t else (pyRemove t x).map (a :: ·)

/-- ConnectionManager state: the `active_connections` list
(src/main.py:50-52), observers named by numeric identity. -/
structure ConnectionManager where
  active_connections : List ℕ
deriving DecidableEq

/-- `ConnectionManager.disconnect` (src/main.py:59-60): Python
`list.remove`, which raises `ValueError` on an absent observer. -/
def ConnectionManager.disconnect (m : ConnectionManager) (ws : ℕ) :
    Except String ConnectionManager :=
  (pyRemove m.active_connections ws).map ConnectionManager.mk

/-- The per-observer send loop of `ConnectionManager.broadcast`
(src/main.py:62-65): each send's outcome is given by `send`; a raising
send is swallowed by `try/except: pass` and the loop continues. -/
def broadcastRun (send : ℕ → Except Unit Unit) (message : String) :
    List ℕ → List (ℕ × String)
  | [] => []
  | c :: rest =>
      (match send c with
       | .ok _ => [(c, message)]
       | .error _ => []) ++ broadcastRun send message rest

/-- `ConnectionManager.broadcast` (src/main.py:62-65): attempt delivery of
`message` to every active connection; returns the unchanged manager and
the (observer, payload) deliveries that succeeded.  Total: no exception
reaches the caller. -/
def ConnectionManager.broadcast (m : ConnectionManager) (send : ℕ → Except Unit Unit)
    (message : String) : ConnectionManager × List (ℕ × String) :=
  (m, broadcastRun send message m.active_connections)

/-- A packet that is a WARNING-level log line. -/
def Packet.isWarning : Packet → Bool
  | .log _ level _ => level = "WARNING"
  | .data _ _ _ _ _ => false

theorem floor_le_rhe (q : ℚ) : ⌊q⌋ ≤ rhe q := by
  unfold rhe
  split
  · split <;> omega
  · rw [round_eq]
    exact Int.floor_mono (by linarith)

theorem rhe_le_ceil (q : ℚ) : rhe q ≤ ⌈q⌉ := by
  unfold rhe
  split
  · rename_i h
    have h2 : q - ⌊q⌋ = 1/2 := by rw [Int.self_sub_floor, h]
    have hlt : (⌊q⌋ : ℚ) < q := by linarith
    have h3 : ⌊q⌋ < ⌈q⌉ := Int.lt_ceil.mpr hlt
    split <;> omega
  · rw [round_eq]
    have h1 : q ≤ (⌈q⌉ : ℚ) := Int.le_ceil q
    refine Int.floor_le_iff.mpr ?_
    linarith

/-- Rounding to one decimal cannot leave an interval whose endpoints are
integral rationals. -/
theorem round1_bounds (a b u : ℚ) (ha : (⌊a⌋ : ℚ) = a) (hb : (⌈b⌉ : ℚ) = b)
    (h1 : a ≤ u) (h2 : u ≤ b) : a ≤ round1 u ∧ round1 u ≤ b := by
  have lo : (10 * ⌊a⌋ : ℤ) ≤ ⌊10 * u⌋ := by
    refine Int.le_floor.mpr ?_
    push_cast
    rw [ha]
    linarith
  have hi : ⌈10 * u⌉ ≤ (10 * ⌈b⌉ : ℤ) := by
    refine Int.ceil_le.mpr ?_
    have : ((10 * ⌈b⌉ : ℤ) : ℚ) = 10 * b := by push_cast; rw [hb]
    rw [this]
    linarith
  have lo2 : (10 * ⌊a⌋ : ℤ) ≤ rhe (10 * u) := le_trans lo (floor_le_rhe _)
  have hi2 : rhe (10 * u) ≤ (10 * ⌈b⌉ : ℤ) := le_trans (rhe_le_ceil _) hi
  have lo3 : ((10 * ⌊a⌋ : ℤ) : ℚ) ≤ (rhe (10 * u) : ℚ) := by exact_mod_cast lo2
  have hi3 : ((rhe (10 * u) : ℤ) : ℚ) ≤ ((10 * ⌈b⌉ : ℤ) : ℚ) := by exact_mod_cast hi2
  push_cast at lo3 hi3
  rw [ha] at lo3
  rw [hb] at hi3
  unfold round1
  constructor <;> linarith

theorem broadcastRun_delivers (send : ℕ → Except Unit Unit) (msg : String)
    (l : List ℕ) (c : ℕ) (hc : c ∈ l) (hok : send c = .ok ()) :
    (c, msg) ∈ broadcastRun send msg l := by
  induction l with
  | nil => cases hc
  | cons a t ih =>
    rcases List.mem_cons.mp hc with rfl | h
    · cases hs : send c
      · simp [hs] at hok
      · simp [broadcastRun, hs]
    · cases hs : send a <;> simp [broadcastRun, hs, ih h]

theorem pyRemove_not_mem {α : Type} [DecidableEq α] (l : List α) (x : α) (h : x ∉ l) :
    pyRemove l x = .error "ValueError" := by
  induction l with
  | nil => rfl
  | cons a t ih =>
    have hne : a ≠ x := fun e => h (e ▸ List.mem_cons_self a t)
    have hx : x ∉ t := fun e => h (List.mem_cons_of_mem a e)
    simp [pyRemove, hne, ih hx, Except.map]

theorem pyRemove_mem {α : Type} [DecidableEq α] (l : List α) (x : α) (h : x ∈ l) :
    pyRemove l x = .ok (l.erase x) := by
  induction l with
  | nil => cases h
  | cons a t ih =>
    by_cases hax : a = x
    · subst hax
      simp [pyRemove, List.erase_cons_head]
    · have hx : x ∈ t := by
        rcases List.mem_cons.mp h with rfl | ht
        · exact absurd rfl hax
        · exact ht
      have herase : (a :: t).erase x = a :: t.erase x := by
        simp [List.erase_cons, hax]
      simp [pyRemove, hax, ih hx, herase, Except.map]

/-- C2: `set_interval` stores the requested interval clamped into
[0.5, 10.0] as the new process-wide interval, returns exactly the
clamped value with status "updated" (out-of-range input is clamped,
never rejected as an error); in particular requesting 0.2 yields an
effective interval of 0.5 and requesting 99 yields 10.0. -/
theorem c2_set_interval_clamps :
    (∀ (v : ℚ) (now : String),
      (set_interval v now).1 = max (1/2) (min 10 v) ∧
      (set_interval v now).1 = min (max v (1/2)) 10 ∧
      (set_interval v now).2.2 = ("updated", (set_interval v now).1)) ∧
    (set_interval (2/10) "12:00:00").2.2.2 = 1/2 ∧
    (set_interval 99 "12:00:00").2.2.2 = 10 := by
  refine ⟨fun v now => ⟨rfl, ?_, rfl⟩, ?_, ?_⟩
  · simp only [set_interval, max_def, min_def]
    split_ifs <;> first | rfl | linarith
  · norm_num [set_interval, max_def, min_def]
  · norm_num [set_interval, max_def, min_def]

/-- C3: `broadcast` attempts delivery to every registered observer;
a failing send is swallowed, it neither prevents delivery to the other
observers nor raises to the caller nor removes the failing observer
from the observer set (the manager is returned unchanged). -/
theorem c3_broadcast_tolerates_failures :
    ∀ (m : ConnectionManager) (send : ℕ → Except Unit Unit) (msg : String),
      (m.broadcast send msg).1 = m ∧
      ∀ c ∈ m.active_connections, send c = .ok () →
        (c, msg) ∈ (m.broadcast send msg).2 :=
  fun _ send msg =>
    ⟨rfl, fun c hc hok => broadcastRun_delivers send msg _ c hc hok⟩

theorem c3_witness :
    ((ConnectionManager.mk [0, 1, 2]).broadcast
        (fun c => if c = 1 then .error () else .ok ()) "evt").1 =
      ConnectionManager.mk [0, 1, 2] ∧
    (2, "evt") ∈ ((ConnectionManager.mk [0, 1, 2]).broadcast
        (fun c => if c = 1 then .error () else .ok ()) "evt").2 :=
  ⟨(c3_broadcast_tolerates_failures _ _ _).1,
   (c3_broadcast_tolerates_failures _ _ _).2 2 (by simp) (by simp)⟩

/-- C5 counterexample: removing an observer that is not in the observer
set is not a no-op — `disconnect` (Python `list.remove`) raises
`ValueError` on the empty observer set. -/
theorem c5_unregister_cex :
    (0 : ℕ) ∉ (ConnectionManager.mk []).active_connections ∧
    (ConnectionManager.mk []).disconnect 0 ≠ .ok (ConnectionManager.mk []) ∧
    (ConnectionManager.mk []).disconnect 0 = .error "ValueError" := by
  refine ⟨by simp, ?_, rfl⟩
  intro h
  simp [ConnectionManager.disconnect, pyRemove, Except.map] at h

/-- C5 amended: `disconnect` removes the first occurrence of a present
observer from the observer set, but removing an absent observer raises
`ValueError` to the caller instead of being an idempotent no-op. -/
theorem c5_disconnect_amended :
    ∀ (m : ConnectionManager) (ws : ℕ),
      (ws ∉ m.active_connections → m.disconnect ws = .error "ValueError") ∧
      (ws ∈ m.active_connections →
        m.disconnect ws = .ok (ConnectionManager.mk (m.active_connections.erase ws))) := by
  intro m ws
  constructor
  · intro h
    simp [ConnectionManager.disconnect, pyRemove_not_mem _ _ h, Except.map]
  · intro h
    simp [ConnectionManager.disconnect, pyRemove_mem _ _ h, Except.map]

theorem c5_disconnect_amended_witness :
    (ConnectionManager.mk [7]).disconnect 5 = .error "ValueError" ∧
    (ConnectionManager.mk [7, 5, 7]).disconnect 7 = .ok (ConnectionManager.mk [5, 7]) := by
  refine ⟨(c5_disconnect_amended (ConnectionManager.mk [7]) 5).1 (by simp), ?_⟩
  have h := (c5_disconnect_amended (ConnectionManager.mk [7, 5, 7]) 7).2 (by simp)
  rw [h]
  rfl

/-- C8: a start/stop command naming a sensor identifier absent from the
sensor map is silently ignored — it leaves the whole sensor state
untouched, emits no event, and returns normally. -/
theorem c8_unknown_sensor_cmds_ignored :
    ∀ (st : List (String × SensorWorker)) (sensor_id now : String),
      st.lookup sensor_id = none →
      startSensorCmd st sensor_id now = (st, []) ∧
      stopSensorCmd st sensor_id now = (st, []) := by
  intro st sid now h
  constructor <;> simp [startSensorCmd, stopSensorCmd, h]

theorem c8_witness :
    startSensorCmd sensorsMap "foo" "12:00:00" = (sensorsMap, []) ∧
    stopSensorCmd sensorsMap "foo" "12:00:00" = (sensorsMap, []) :=
  c8_unknown_sensor_cmds_ignored sensorsMap "foo" "12:00:00" (by decide)

/-- C10: a freshly constructed worker is running with current value 0,
and for the pressure sensor (bounds [980, 1050]) this initial value lies
outside [minimum, maximum] — the in-bounds invariant holds only after a
first generation cycle, not at construction. -/
theorem c10_initial_value_zero_out_of_bounds :
    (∀ (sid n un : String) (a b : ℚ),
        (SensorWorker.init sid n un a b).current_value = 0 ∧
        (SensorWorker.init sid n un a b).is_running = true) ∧
    ∃ w ∈ sensorsList, w.id = "press" ∧ w.min_val = 980 ∧ w.max_val = 1050 ∧
      ¬(w.min_val ≤ w.current_value ∧ w.current_value ≤ w.max_val) := by
  refine ⟨fun _ _ _ _ _ => ⟨rfl, rfl⟩,
    ⟨SensorWorker.init "press" "Тиск" "hPa" 980 1050, ?_, rfl, rfl, rfl, ?_⟩⟩
  · simp [sensorsList]
  · intro h
    have h1 : (980 : ℚ) ≤ 0 := h.1
    norm_num at h1

/-- C6: `start` on an already-running worker and `stop` on an already
paused worker are no-ops emitting no log event; a log event is emitted
exactly on a true transition, so stop-then-start on a running worker
emits exactly two log events — the "зупинено" line then the
"стартував" line — and leaves the worker running as before. -/
theorem c6_start_stop_log_on_true_transitions :
    ∀ (w : SensorWorker) (now now' : String),
      (w.is_running = true → w.start now = (w, [])) ∧
      (w.is_running = false → w.stop now = (w, [])) ∧
      (w.is_running = true →
        (w.stop now).2 ++ ((w.stop now).1.start now').2 =
          [.log now "INFO" ("Сенсор '" ++ w.name ++ "' зупинено."),
           .log now' "INFO" ("Сенсор '" ++ w.name ++ "' стартував.")] ∧
        ((w.stop now).1.start now').1 = w) := by
  intro w now now'
  refine ⟨?_, ?_, ?_⟩
  · intro h
    simp [SensorWorker.start, h]
  · intro h
    simp [SensorWorker.stop, h]
  · intro h
    rcases w with ⟨sid, n, un, a, b, run, cv⟩
    simp only at h
    subst h
    simp [SensorWorker.stop, SensorWorker.start]

theorem c6_witness :
    (SensorWorker.init "wind" "Швидкість вітру" "м/с" 0 25).start "10:00:00" =
      (SensorWorker.init "wind" "Швидкість вітру" "м/с" 0 25, []) ∧
    ((SensorWorker.init "wind" "Швидкість вітру" "м/с" 0 25).stop "10:00:00").2 ++
        (((SensorWorker.init "wind" "Швидкість вітру" "м/с" 0 25).stop
            "10:00:00").1.start "10:00:05").2 =
      [Packet.log "10:00:00" "INFO" ("Сенсор '" ++ "Швидкість вітру" ++ "' зупинено."),
       Packet.log "10:00:05" "INFO" ("Сенсор '" ++ "Швидкість вітру" ++ "' стартував.")] :=
  ⟨(c6_start_stop_log_on_true_transitions
      (SensorWorker.init "wind" "Швидкість вітру" "м/с" 0 25) "10:00:00" "10:00:05").1 rfl,
   ((c6_start_stop_log_on_true_transitions
      (SensorWorker.init "wind" "Швидкість вітру" "м/с" 0 25) "10:00:00" "10:00:05").2.2 rfl).1⟩

/-- C7: a sensor whose identifier has no THRESHOLDS entry never emits a
WARNING in a cycle; an entry with an absent min (resp. max) bound never
classifies BELOW_MIN for values ≥ -999 (resp. ABOVE_MAX for values
≤ 999); and every defined sensor that has a THRESHOLDS entry has its
generation bounds strictly inside (-999, 999), so in-bounds readings
never trip an absent bound. -/
theorem c7_absent_bounds_never_warn :
    (∀ (w : SensorWorker) (u : ℚ) (now : String),
        THRESHOLDS.lookup w.id = none →
        ((w.cycle u now).2.filter Packet.isWarning) = []) ∧
    (∀ (table : List (String × Entry)) (sid : String) (e : Entry) (v : ℚ),
        table.lookup sid = some e → e.minLim = none → (-999 : ℚ) ≤ v →
        classify table sid v ≠ .BELOW_MIN) ∧
    (∀ (table : List (String × Entry)) (sid : String) (e : Entry) (v : ℚ),
        table.lookup sid = some e → e.maxLim = none → v ≤ (999 : ℚ) →
        classify table sid v ≠ .ABOVE_MAX) ∧
    (∀ w ∈ sensorsList, (THRESHOLDS.lookup w.id).isSome = true →
        (-999 : ℚ) < w.min_val ∧ w.max_val < (999 : ℚ)) := by
  refine ⟨?_, ?_, ?_, ?_⟩
  · intro w u now h
    cases hr : w.is_running
    · simp [SensorWorker.cycle, hr]
    · simp [SensorWorker.cycle, hr, limitWarnings, h, Packet.isWarning]
  · intro t sid e v hl hmin hv hcl
    simp only [classify, hl, hmin, Option.getD_none] at hcl
    split_ifs at hcl
    all_goals linarith
  · intro t sid e v hl hmax hv hcl
    simp only [classify, hl, hmax, Option.getD_none] at hcl
    split_ifs at hcl
    all_goals linarith
  · intro w hw h
    simp only [sensorsList, List.mem_cons, List.not_mem_nil, or_false] at hw
    rcases hw with rfl | rfl | rfl | rfl | rfl | rfl | rfl
    all_goals first
      | exact absurd h (by decide)
      | constructor <;> norm_num [SensorWorker.init]

theorem c7_witness :
    ((SensorWorker.init "humid" "Вологість" "%" 20 90).cycle 50 "12:00:00").2.filter
        Packet.isWarning = [] ∧
    classify THRESHOLDS "wind" 5 ≠ .BELOW_MIN ∧
    classify [("x", ⟨none, some 3⟩)] "x" 100 ≠ .ABOVE_MAX ∧
    ((-999 : ℚ) < (SensorWorker.init "wind" "Швидкість вітру" "м/с" 0 25).min_val ∧
      (SensorWorker.init "wind" "Швидкість вітру" "м/с" 0 25).max_val < (999 : ℚ)) :=
  ⟨c7_absent_bounds_never_warn.1 _ 50 "12:00:00" (by decide),
   c7_absent_bounds_never_warn.2.1 THRESHOLDS "wind" ⟨some 15, none⟩ 5 (by decide) rfl
     (by norm_num),
   c7_absent_bounds_never_warn.2.2.1 _ "x" ⟨none, some 3⟩ 100 (by decide) rfl (by norm_num),
   c7_absent_bounds_never_warn.2.2.2 _ (by simp [sensorsList]) (by decide)⟩

/-- C9: every packet pushed to observers has exactly one of the two wire
shapes — a log object with keys type/time/level/message and type "log",
or a data object with keys type/sensor_id/name/value/unit/timestamp and
type "data" — and one serialized event is handed per message to the
broadcast loop, which delivers the identical payload to every observer
whose send succeeds. -/
theorem c9_wire_event_shapes :
    (∀ p : Packet,
        (p.fields.map Prod.fst = ["type", "time", "level", "message"] ∧
          (p.fields.map Prod.snd).head? = some "\"log\"") ∨
        (p.fields.map Prod.fst = ["type", "sensor_id", "name", "value", "unit", "timestamp"] ∧
          (p.fields.map Prod.snd).head? = some "\"data\"")) ∧
    (∀ (w : SensorWorker) (u : ℚ) (now : String) (m : ConnectionManager)
        (send : ℕ → Except Unit Unit) (p : Packet) (c : ℕ),
        p ∈ (w.cycle u now).2 → c ∈ m.active_connections → send c = .ok () →
        (c, p.serialize) ∈ (m.broadcast send p.serialize).2) := by
  constructor
  · intro p
    cases p
    · exact Or.inl ⟨rfl, rfl⟩
    · exact Or.inr ⟨rfl, rfl⟩
  · intro w u now m send p c _ hc hok
    exact broadcastRun_delivers send p.serialize _ c hc hok

theorem c9_witness :
    (1, (Packet.data "humid" "Вологість" (round1 50) "%" "t").serialize) ∈
      ((ConnectionManager.mk [1]).broadcast (fun _ => .ok ())
        (Packet.data "humid" "Вологість" (round1 50) "%" "t").serialize).2 :=
  c9_wire_event_shapes.2 (SensorWorker.init "humid" "Вологість" "%" 20 90) 50 "t"
    (ConnectionManager.mk [1]) (fun _ => .ok ())
    (Packet.data "humid" "Вологість" (round1 50) "%" "t") 1
    (by simp [SensorWorker.cycle, SensorWorker.init, limitWarnings, THRESHOLDS, List.lookup])
    (by simp) rfl

theorem rhe_intCast (n : ℤ) : rhe (n : ℚ) = n := by
  unfold rhe
  rw [Int.fract_intCast]
  norm_num [round_intCast]

theorem round1_324 : round1 (324/10) = 324/10 := by
  have h : (10 : ℚ) * (324/10) = ((324 : ℤ) : ℚ) := by norm_num
  rw [round1, h, rhe_intCast]
  norm_num

theorem fmt1_324 : fmt1 (324/10) = "32.4" := by
  have h : (10 : ℚ) * (324/10) = ((324 : ℤ) : ℚ) := by norm_num
  simp only [fmt1, h, Int.floor_intCast]
  norm_num
  rfl

/-- C4: threshold evaluation is a function of (identifier, value, table)
alone, checking the max bound before the min bound — whenever the value
exceeds the entry's max the classification is ABOVE_MAX regardless of
the min bound; and for the table entry temp with max 30 / min -5, the
value 32.4 classifies ABOVE_MAX and the cycle emits exactly one WARNING
log whose message contains "32.4". -/
theorem c4_threshold_max_first_scenario :
    (∀ (table : List (String × Entry)) (sid : String) (e : Entry) (v : ℚ),
        table.lookup sid = some e → v > e.maxLim.getD 999 →
        classify table sid v = .ABOVE_MAX) ∧
    classify THRESHOLDS "temp" (324/10) = .ABOVE_MAX ∧
    (∀ now : String,
      ((SensorWorker.init "temp" "Температура" "°C" (-10) 35).cycle (324/10) now).2.filter
          Packet.isWarning =
        [Packet.log now "WARNING" ("HIGH LIMIT: Температура " ++ "32.4")]) := by
  have hl : THRESHOLDS.lookup "temp" = some ⟨some 30, some (-5)⟩ := by decide
  refine ⟨?_, ?_, ?_⟩
  · intro t sid e v hle hgt
    simp [classify, hle, hgt]
  · simp only [classify, hl, Option.getD_some]
    rw [if_pos (by norm_num : (324/10 : ℚ) > 30)]
  · intro now
    have hw : limitWarnings (SensorWorker.init "temp" "Температура" "°C" (-10) 35)
        (324/10) now =
        [Packet.log now "WARNING" ("HIGH LIMIT: " ++ "Температура" ++ " " ++ fmt1 (324/10))] := by
      simp only [limitWarnings, SensorWorker.init, hl, Option.getD_some]
      rw [if_pos (by norm_num : (324/10 : ℚ) > 30)]
    have e1 : ((SensorWorker.init "temp" "Температура" "°C" (-10) 35).cycle (324/10) now).2 =
        limitWarnings (SensorWorker.init "temp" "Температура" "°C" (-10) 35)
          (round1 (324/10)) now ++
          [Packet.data "temp" "Температура" (round1 (324/10)) "°C" now] := rfl
    rw [e1, round1_324, hw, fmt1_324]
    simp [Packet.isWarning]

theorem c4_witness : classify THRESHOLDS "temp" (324/10) = .ABOVE_MAX :=
  c4_threshold_max_first_scenario.1 THRESHOLDS "temp" ⟨some 30, some (-5)⟩ (324/10)
    (by decide) (by norm_num)

theorem init_cycle_bounds (sid n un : String) (a b u : ℚ) (now : String)
    (ha : (⌊a⌋ : ℚ) = a) (hb : (⌈b⌉ : ℚ) = b)
    (h1 : (SensorWorker.init sid n un a b).min_val ≤ u)
    (h2 : u ≤ (SensorWorker.init sid n un a b).max_val) :
    (SensorWorker.init sid n un a b).min_val ≤ round1 u ∧
    round1 u ≤ (SensorWorker.init sid n un a b).max_val ∧
    (((SensorWorker.init sid n un a b).cycle u now).1.current_value = round1 u) := by
  have h := round1_bounds a b u ha hb h1 h2
  exact ⟨h.1, h.2, rfl⟩

/-- C1: for every sensor definition of the program (all of which have
minimum ≤ maximum), every value produced by a generation step
round1(uniform draw) lies in [minimum, maximum], and the worker's
current value after an executed cycle equals that generated value, so
it lies within bounds after at least one cycle. -/
theorem c1_generated_values_within_bounds :
    ∀ w ∈ sensorsList, ∀ (u : ℚ) (now : String),
      w.min_val ≤ u → u ≤ w.max_val →
      w.min_val ≤ round1 u ∧ round1 u ≤ w.max_val ∧
        ((w.cycle u now).1.current_value = round1 u) := by
  intro w hw u now h1 h2
  simp only [sensorsList, List.mem_cons, List.not_mem_nil, or_false] at hw
  rcases hw with rfl | rfl | rfl | rfl | rfl | rfl | rfl
  all_goals exact init_cycle_bounds _ _ _ _ _ u now (by norm_num) (by norm_num) h1 h2

theorem c1_witness :
    (SensorWorker.init "temp" "Температура" "°C" (-10) 35).min_val ≤ round1 20 ∧
    round1 20 ≤ (SensorWorker.init "temp" "Температура" "°C" (-10) 35).max_val ∧
    (((SensorWorker.init "temp" "Температура" "°C" (-10) 35).cycle 20
        "12:00:00").1.current_value = round1 20) :=
  c1_generated_values_within_bounds _ (by simp [sensorsList]) 20 "12:00:00"
    (by norm_num [SensorWorker.init]) (by norm_num [SensorWorker.init])
